import Mathlib

/-!
Shallow embedding of the virtual-wallet backend (`backend_wallet_api.py`).

Modelling choices:
- Monetary values are exact rationals (`ℚ`).  The source rounds balances to
  2 decimal places after every mutation with Python's `round(x, 2)`
  (round-half-to-even); this is `round2` below.
- The global in-memory lists `users_db`, `items_db`, `transactions_db` become
  an explicit `Store` record threaded through every operation.  A Python
  function that mutates the globals and may `raise HTTPException` becomes a
  function returning `Store × Except HTTPError α`: the returned store reflects
  exactly the mutations performed before a raise, in source order.
- `datetime.now()` is modelled by a logical clock `clock : ℕ` in the store,
  read and advanced by `record_transaction`.
- Password hashing (`passlib` bcrypt) is an external collaborator; operations
  that hash take an arbitrary `hashFn : String → String` parameter.
- JWT decoding (`jose`) is an external collaborator; `get_current_user` takes
  the decode outcome (`DecodeResult`): a `JWTError`, or a payload with an
  optional `sub` claim.
-/

namespace Wallet

/-- Python's `round(x, ndigits)` rounds to the nearest integer multiple,
ties to even.  This is the integer-valued round-half-to-even. -/
def roundHalfEven (x : ℚ) : ℤ :=
  let f := ⌊x⌋
  let r := x - (f : ℚ)
  if r < 1/2 then f
  else if 1/2 < r then f + 1
  else if f % 2 = 0 then f else f + 1

/-- `round(x, 2)` from the source: round to 2 decimal places, ties to even. -/
def round2 (x : ℚ) : ℚ := (roundHalfEven (100 * x) : ℚ) / 100

/-- `INITIAL_BALANCE = 100.00` (source line 16). -/
def INITIAL_BALANCE : ℚ := 100

/-- A record of `users_db`: `{"id", "username", "hashed_password", "balance"}`. -/
structure User where
  id : ℕ
  username : String
  hashed_password : String
  balance : ℚ
deriving DecidableEq, Repr

/-- A record of `items_db`: `{"id", "name", "price"}`. -/
structure Item where
  id : ℕ
  name : String
  price : ℚ
deriving DecidableEq, Repr

/-- A record of `transactions_db`. -/
structure Transaction where
  id : ℕ
  user_id : ℕ
  timestamp : ℕ
  type : String
  amount : ℚ
  description : String
  item_id : Option ℕ
deriving DecidableEq, Repr

/-- The three global in-memory lists, plus a logical clock for
`datetime.now()`. -/
structure Store where
  users_db : List User
  items_db : List Item
  transactions_db : List Transaction
  clock : ℕ
deriving DecidableEq, Repr

/-- `HTTPException(status_code, detail)` as raised by the source. -/
structure HTTPError where
  status_code : ℕ
  detail : String
deriving DecidableEq, Repr

/-- `HTTPException(400, "Username already registered")` (create_user_record). -/
def duplicate_username_error : HTTPError := ⟨400, "Username already registered"⟩

/-- `HTTPException(404, "User not found")` (update_user_balance). -/
def user_not_found_error : HTTPError := ⟨404, "User not found"⟩

/-- `HTTPException(400, "Insufficient funds in wallet.")` (update_user_balance). -/
def insufficient_funds_error : HTTPError := ⟨400, "Insufficient funds in wallet."⟩

/-- `HTTPException(404, f"Item with ID {item_id} not found.")` (buy_item). -/
def item_not_found_error (item_id : ℕ) : HTTPError :=
  ⟨404, "Item with ID " ++ toString item_id ++ " not found."⟩

/-- The single `credentials_exception` of `get_current_user`:
`HTTPException(401, "Could not validate credentials")`. -/
def credentials_exception : HTTPError := ⟨401, "Could not validate credentials"⟩

/-- `get_next_id(db)`: 1 on an empty table, else `max(item['id'] for item in db) + 1`. -/
def get_next_id : List ℕ → ℕ
  | [] => 1
  | x :: xs => xs.foldl max x + 1

/-- `seed_data()`: the five items seeded into `items_db` at startup. -/
def seeded_items : List Item :=
  [ ⟨1, "The Great Gatsby (Book)", 50⟩,
    ⟨2, "Coffee Mug", (25.50 : ℚ)⟩,
    ⟨3, "Notebook (Premium)", 10⟩,
    ⟨4, "Mystery Box (Low Risk)", (49.99 : ℚ)⟩,
    ⟨5, "Pen Set (Ballpoint)", 15⟩ ]

/-- The state after module load: empty users and transactions, seeded items. -/
def initStore : Store := ⟨[], seeded_items, [], 0⟩

/-- `get_user(username)`: first user with this username, if any. -/
def get_user (s : Store) (username : String) : Option User :=
  s.users_db.find? (fun u => u.username == username)

/-- `get_user_by_id(user_id)`: first user with this id, if any. -/
def get_user_by_id (s : Store) (user_id : ℕ) : Option User :=
  s.users_db.find? (fun u => u.id == user_id)

/-- In-place mutation `user['balance'] = b` of the first user whose id matches
(the dict object `get_user_by_id` returned). -/
def setBalance : List User → ℕ → ℚ → List User
  | [], _, _ => []
  | u :: rest, uid, b =>
    if u.id == uid then { u with balance := b } :: rest
    else u :: setBalance rest uid b

/-- `record_transaction(user_id, amount, type, description, item_id)`:
appends one transaction with a fresh id and the current timestamp.
Always succeeds. -/
def record_transaction (s : Store) (user_id : ℕ) (amount : ℚ) (type : String)
    (description : String) (item_id : Option ℕ) : Store × Transaction :=
  let transaction_id := get_next_id (s.transactions_db.map (·.id))
  let new_transaction : Transaction :=
    ⟨transaction_id, user_id, s.clock, type, amount, description, item_id⟩
  ({ s with transactions_db := s.transactions_db ++ [new_transaction],
            clock := s.clock + 1 },
   new_transaction)

/-- `update_user_balance(user_id, amount, operation)`: raises if the user is
missing, or on `'SUBTRACT'` with insufficient balance; otherwise applies the
operation (a string other than `'ADD'`/`'SUBTRACT'` applies neither branch)
and stores the balance rounded to 2 decimal places, returning it. -/
def update_user_balance (s : Store) (user_id : ℕ) (amount : ℚ)
    (operation : String) : Store × Except HTTPError ℚ :=
  match get_user_by_id s user_id with
  | none => (s, .error user_not_found_error)
  | some user =>
    if operation = "SUBTRACT" then
      if user.balance < amount then (s, .error insufficient_funds_error)
      else
        let b := round2 (user.balance - amount)
        ({ s with users_db := setBalance s.users_db user_id b }, .ok b)
    else if operation = "ADD" then
      let b := round2 (user.balance + amount)
      ({ s with users_db := setBalance s.users_db user_id b }, .ok b)
    else
      let b := round2 user.balance
      ({ s with users_db := setBalance s.users_db user_id b }, .ok b)

/-- `create_user_record(user)`: raises `DuplicateUsername` if the username
exists; otherwise appends a new user with the initial grant and records one
REGISTER transaction. -/
def create_user_record (hashFn : String → String) (s : Store)
    (username password : String) : Store × Except HTTPError User :=
  match get_user s username with
  | some _ => (s, .error duplicate_username_error)
  | none =>
    let hashed_password := hashFn password
    let user_id := get_next_id (s.users_db.map (·.id))
    let new_user : User := ⟨user_id, username, hashed_password, INITIAL_BALANCE⟩
    let s1 := { s with users_db := s.users_db ++ [new_user] }
    let s2 := (record_transaction s1 user_id INITIAL_BALANCE "REGISTER"
      "Initial Wallet Setup" none).1
    (s2, .ok new_user)

/-- `spend_money` endpoint body: subtract `amount` (pydantic enforces
`amount > 0`), then record one SPEND transaction, returning the new balance. -/
def spend_money (s : Store) (user_id : ℕ) (amount : ℚ) (description : String) :
    Store × Except HTTPError ℚ :=
  match update_user_balance s user_id amount "SUBTRACT" with
  | (s1, .error e) => (s1, .error e)
  | (s1, .ok new_balance) =>
    let s2 := (record_transaction s1 user_id amount "SPEND" description none).1
    (s2, .ok new_balance)

/-- `buy_item` endpoint body: find the item (404 if absent), subtract its
price, then record one BUY transaction referencing the item. -/
def buy_item (s : Store) (user_id : ℕ) (item_id : ℕ) :
    Store × Except HTTPError ℚ :=
  match s.items_db.find? (fun i => i.id == item_id) with
  | none => (s, .error (item_not_found_error item_id))
  | some item =>
    match update_user_balance s user_id item.price "SUBTRACT" with
    | (s1, .error e) => (s1, .error e)
    | (s1, .ok new_balance) =>
      let s2 := (record_transaction s1 user_id item.price "BUY"
        ("Purchased: " ++ item.name) (some item_id)).1
      (s2, .ok new_balance)

/-- Outcome of `jwt.decode` on a bearer token (external `jose` library):
either it raises `JWTError`, or it yields a payload whose `sub` claim is the
optional username. -/
inductive DecodeResult
  | jwtError
  | payload (sub : Option String)
deriving DecidableEq, Repr

/-- `get_current_user` dependency: classify the decode outcome and resolve the
claimed username to a user; every failure raises the same
`credentials_exception`. -/
def get_current_user (s : Store) (decoded : DecodeResult) :
    Except HTTPError User :=
  match decoded with
  | .jwtError => .error credentials_exception
  | .payload none => .error credentials_exception
  | .payload (some username) =>
    match get_user s username with
    | none => .error credentials_exception
    | some user => .ok user

/-- The operations a client can drive against the store.  Read endpoints
(`/wallet/balance`, `/items/list`, `/transactions`, `/users`) perform no
mutation in the source; they appear here so sequences can interleave them. -/
inductive Op
  | register (username password : String)
  | spend (user_id : ℕ) (amount : ℚ) (description : String)
  | buy (user_id : ℕ) (item_id : ℕ)
  | readBalance (user_id : ℕ)
  | listItems
  | listTransactions
  | listUsers
deriving DecidableEq, Repr

/-- One request against the store: the resulting store (mutations made before
any raise persist, as with the Python globals) and the outcome. -/
def apply_op (hashFn : String → String) (s : Store) : Op → Store × Except HTTPError Unit
  | .register username password =>
    let (s', r) := create_user_record hashFn s username password
    (s', r.map fun _ => ())
  | .spend user_id amount description =>
    let (s', r) := spend_money s user_id amount description
    (s', r.map fun _ => ())
  | .buy user_id item_id =>
    let (s', r) := buy_item s user_id item_id
    (s', r.map fun _ => ())
  | .readBalance _ => (s, .ok ())
  | .listItems => (s, .ok ())
  | .listTransactions => (s, .ok ())
  | .listUsers => (s, .ok ())

/-- Run a sequence of requests from a starting store. -/
def run (hashFn : String → String) (ops : List Op) (s : Store) : Store :=
  ops.foldl (fun s op => (apply_op hashFn s op).1) s

end Wallet

namespace Wallet

/-- All balances in the store are non-negative. -/
def AllNonneg (s : Store) : Prop := ∀ u ∈ s.users_db, 0 ≤ u.balance

/-- Both id-assigned tables are strictly increasing in insertion order. -/
def IdsSorted (s : Store) : Prop :=
  (s.users_db.map (·.id)).Pairwise (· < ·)
    ∧ (s.transactions_db.map (·.id)).Pairwise (· < ·)

/-- Concrete stand-in for the external bcrypt hash, used in examples. -/
def idHashFn : String → String := fun p => p

/-- A registered example user with the initial grant. -/
def aliceUser : User := ⟨1, "alice", "secret1", 100⟩

/-- A store holding only `aliceUser`, with the seeded items. -/
def aliceStore : Store := ⟨[aliceUser], seeded_items, [], 0⟩

theorem roundHalfEven_nonneg {x : ℚ} (hx : 0 ≤ x) : 0 ≤ roundHalfEven x := by
  unfold roundHalfEven
  have hf : (0:ℤ) ≤ ⌊x⌋ := Int.floor_nonneg.mpr hx
  dsimp only
  split
  · exact hf
  · split
    · omega
    · split
      · exact hf
      · omega

theorem round2_nonneg {x : ℚ} (hx : 0 ≤ x) : 0 ≤ round2 x := by
  unfold round2
  have h : (0:ℤ) ≤ roundHalfEven (100 * x) := roundHalfEven_nonneg (by positivity)
  have h2 : (0:ℚ) ≤ (roundHalfEven (100 * x) : ℚ) := by exact_mod_cast h
  positivity

theorem foldl_max_init_le (l : List ℕ) (b : ℕ) : b ≤ l.foldl max b := by
  induction l generalizing b with
  | nil => exact le_refl b
  | cons x xs ih => exact le_trans (le_max_left b x) (ih (max b x))

theorem le_foldl_max_of_mem {a : ℕ} {l : List ℕ} (b : ℕ) (h : a ∈ l) :
    a ≤ l.foldl max b := by
  induction l generalizing b with
  | nil => cases h
  | cons x xs ih =>
    rcases List.mem_cons.mp h with rfl | h
    · exact le_trans (le_max_right b a) (foldl_max_init_le xs (max b a))
    · exact ih (max b x) h

theorem lt_get_next_id {i : ℕ} {ids : List ℕ} (h : i ∈ ids) : i < get_next_id ids := by
  match ids with
  | [] => cases h
  | x :: xs =>
    unfold get_next_id
    rcases List.mem_cons.mp h with rfl | h
    · exact Nat.lt_succ_of_le (foldl_max_init_le xs i)
    · exact Nat.lt_succ_of_le (le_foldl_max_of_mem x h)

theorem setBalance_map_id (l : List User) (uid : ℕ) (b : ℚ) :
    (setBalance l uid b).map (·.id) = l.map (·.id) := by
  induction l with
  | nil => rfl
  | cons u rest ih =>
    unfold setBalance
    split
    · simp
    · simp [ih]

theorem setBalance_nonneg {l : List User} {b : ℚ} (uid : ℕ)
    (hl : ∀ u ∈ l, 0 ≤ u.balance) (hb : 0 ≤ b) :
    ∀ u ∈ setBalance l uid b, 0 ≤ u.balance := by
  induction l with
  | nil => intro u hu; cases hu
  | cons v rest ih =>
    unfold setBalance
    split
    · intro u hu
      rcases List.mem_cons.mp hu with rfl | hu
      · exact hb
      · exact hl u (List.mem_cons_of_mem v hu)
    · intro u hu
      rcases List.mem_cons.mp hu with rfl | hu
      · exact hl _ (List.mem_cons_self _ _)
      · exact ih (fun w hw => hl w (List.mem_cons_of_mem _ hw)) u hu

theorem find?_setBalance {l : List User} {uid : ℕ} {u : User} (b : ℚ)
    (h : l.find? (fun v => v.id == uid) = some u) :
    (setBalance l uid b).find? (fun v => v.id == uid) = some { u with balance := b } := by
  induction l with
  | nil => simp [List.find?] at h
  | cons v rest ih =>
    unfold setBalance
    by_cases hv : (v.id == uid) = true
    · rw [if_pos hv]
      simp only [List.find?, hv] at h
      injection h with h
      subst h
      simp [List.find?, hv]
    · have hv' : (v.id == uid) = false := by
        simpa using hv
      rw [if_neg hv]
      simp only [List.find?, hv'] at h ⊢
      exact ih h

theorem update_user_balance_none {s : Store} {uid : ℕ} (amount : ℚ) (operation : String)
    (h : get_user_by_id s uid = none) :
    update_user_balance s uid amount operation = (s, .error user_not_found_error) := by
  unfold update_user_balance
  rw [h]

theorem update_user_balance_insufficient {s : Store} {uid : ℕ} {u : User} {amount : ℚ}
    (hu : get_user_by_id s uid = some u) (hlt : u.balance < amount) :
    update_user_balance s uid amount "SUBTRACT" = (s, .error insufficient_funds_error) := by
  unfold update_user_balance
  rw [hu]
  dsimp only
  rw [if_pos (rfl : ("SUBTRACT" : String) = "SUBTRACT"), if_pos hlt]

theorem update_user_balance_subtract_ok {s : Store} {uid : ℕ} {u : User} {amount : ℚ}
    (hu : get_user_by_id s uid = some u) (hge : amount ≤ u.balance) :
    update_user_balance s uid amount "SUBTRACT" =
      ({ s with users_db := setBalance s.users_db uid (round2 (u.balance - amount)) },
       .ok (round2 (u.balance - amount))) := by
  unfold update_user_balance
  rw [hu]
  dsimp only
  rw [if_pos (rfl : ("SUBTRACT" : String) = "SUBTRACT"), if_neg (not_lt.mpr hge)]

theorem update_user_balance_other {s : Store} {uid : ℕ} {u : User} (amount : ℚ)
    {operation : String} (hu : get_user_by_id s uid = some u)
    (hA : operation ≠ "ADD") (hS : operation ≠ "SUBTRACT") :
    update_user_balance s uid amount operation =
      ({ s with users_db := setBalance s.users_db uid (round2 u.balance) },
       .ok (round2 u.balance)) := by
  unfold update_user_balance
  rw [hu]
  dsimp only
  rw [if_neg hS, if_neg hA]

theorem spend_money_error {s s1 : Store} {uid : ℕ} {amount : ℚ} (d : String)
    {e : HTTPError}
    (h : update_user_balance s uid amount "SUBTRACT" = (s1, .error e)) :
    spend_money s uid amount d = (s1, .error e) := by
  unfold spend_money
  rw [h]

theorem spend_money_ok {s s1 : Store} {uid : ℕ} {amount nb : ℚ} (d : String)
    (h : update_user_balance s uid amount "SUBTRACT" = (s1, .ok nb)) :
    spend_money s uid amount d =
      ((record_transaction s1 uid amount "SPEND" d none).1, .ok nb) := by
  unfold spend_money
  rw [h]

theorem buy_item_no_item {s : Store} {uid item_id : ℕ}
    (h : s.items_db.find? (fun i => i.id == item_id) = none) :
    buy_item s uid item_id = (s, .error (item_not_found_error item_id)) := by
  unfold buy_item
  rw [h]

theorem buy_item_error {s s1 : Store} {uid item_id : ℕ} {item : Item} {e : HTTPError}
    (hi : s.items_db.find? (fun i => i.id == item_id) = some item)
    (h : update_user_balance s uid item.price "SUBTRACT" = (s1, .error e)) :
    buy_item s uid item_id = (s1, .error e) := by
  unfold buy_item
  rw [hi]
  dsimp only
  rw [h]

theorem buy_item_ok {s s1 : Store} {uid item_id : ℕ} {item : Item} {nb : ℚ}
    (hi : s.items_db.find? (fun i => i.id == item_id) = some item)
    (h : update_user_balance s uid item.price "SUBTRACT" = (s1, .ok nb)) :
    buy_item s uid item_id =
      ((record_transaction s1 uid item.price "BUY"
        ("Purchased: " ++ item.name) (some item_id)).1, .ok nb) := by
  unfold buy_item
  rw [hi]
  dsimp only
  rw [h]

theorem create_user_record_dup {hashFn : String → String} {s : Store}
    {username : String} (password : String) {u : User}
    (h : get_user s username = some u) :
    create_user_record hashFn s username password = (s, .error duplicate_username_error) := by
  unfold create_user_record
  rw [h]

theorem create_user_record_fresh {hashFn : String → String} {s : Store}
    {username : String} (password : String)
    (h : get_user s username = none) :
    create_user_record hashFn s username password =
      (let new_user : User := ⟨get_next_id (s.users_db.map (·.id)), username,
          hashFn password, INITIAL_BALANCE⟩
       ((record_transaction { s with users_db := s.users_db ++ [new_user] }
          new_user.id INITIAL_BALANCE "REGISTER" "Initial Wallet Setup" none).1,
        .ok new_user)) := by
  unfold create_user_record
  rw [h]

theorem record_transaction_users (s : Store) (uid : ℕ) (amt : ℚ)
    (ty d : String) (iid : Option ℕ) :
    (record_transaction s uid amt ty d iid).1.users_db = s.users_db := rfl

theorem update_user_balance_subtract_nonneg {s : Store} (uid : ℕ) (amount : ℚ)
    (h : AllNonneg s) : AllNonneg (update_user_balance s uid amount "SUBTRACT").1 := by
  cases hu : get_user_by_id s uid with
  | none => rw [update_user_balance_none amount _ hu]; exact h
  | some u =>
    by_cases hlt : u.balance < amount
    · rw [update_user_balance_insufficient hu hlt]; exact h
    · rw [update_user_balance_subtract_ok hu (not_lt.mp hlt)]
      intro w hw
      exact setBalance_nonneg uid h
        (round2_nonneg (sub_nonneg.mpr (not_lt.mp hlt))) w hw

theorem INITIAL_BALANCE_nonneg : (0:ℚ) ≤ INITIAL_BALANCE := by
  unfold INITIAL_BALANCE
  norm_num

theorem create_user_record_nonneg (hashFn : String → String)
    (username password : String) {s : Store} (h : AllNonneg s) :
    AllNonneg (create_user_record hashFn s username password).1 := by
  cases hg : get_user s username with
  | some u => rw [create_user_record_dup password hg]; exact h
  | none =>
    rw [create_user_record_fresh password hg]
    intro w hw
    dsimp only [record_transaction] at hw
    rcases List.mem_append.mp hw with h1 | h1
    · exact h w h1
    · rw [List.mem_singleton] at h1
      subst h1
      exact INITIAL_BALANCE_nonneg

theorem spend_money_nonneg {s : Store} (uid : ℕ) (amount : ℚ) (d : String)
    (h : AllNonneg s) : AllNonneg (spend_money s uid amount d).1 := by
  cases hr : update_user_balance s uid amount "SUBTRACT" with
  | mk s1 r =>
    have h1 : AllNonneg s1 := by
      have := update_user_balance_subtract_nonneg uid amount h
      rw [hr] at this
      exact this
    cases r with
    | error e => rw [spend_money_error d hr]; exact h1
    | ok nb =>
      rw [spend_money_ok d hr]
      intro w hw
      rw [record_transaction_users] at hw
      exact h1 w hw

theorem buy_item_nonneg {s : Store} (uid item_id : ℕ)
    (h : AllNonneg s) : AllNonneg (buy_item s uid item_id).1 := by
  cases hi : s.items_db.find? (fun i => i.id == item_id) with
  | none => rw [buy_item_no_item hi]; exact h
  | some item =>
    cases hr : update_user_balance s uid item.price "SUBTRACT" with
    | mk s1 r =>
      have h1 : AllNonneg s1 := by
        have := update_user_balance_subtract_nonneg uid item.price h
        rw [hr] at this
        exact this
      cases r with
      | error e => rw [buy_item_error hi hr]; exact h1
      | ok nb =>
        rw [buy_item_ok hi hr]
        intro w hw
        rw [record_transaction_users] at hw
        exact h1 w hw

theorem apply_op_nonneg (hashFn : String → String) {s : Store} (op : Op)
    (h : AllNonneg s) : AllNonneg (apply_op hashFn s op).1 := by
  cases op with
  | register username password =>
    have := create_user_record_nonneg hashFn username password h
    cases hc : create_user_record hashFn s username password with
    | mk s' r => rw [hc] at this; simpa [apply_op, hc] using this
  | spend uid amount d =>
    have := spend_money_nonneg uid amount d h
    cases hc : spend_money s uid amount d with
    | mk s' r => rw [hc] at this; simpa [apply_op, hc] using this
  | buy uid item_id =>
    have := buy_item_nonneg uid item_id h
    cases hc : buy_item s uid item_id with
    | mk s' r => rw [hc] at this; simpa [apply_op, hc] using this
  | readBalance uid => exact h
  | listItems => exact h
  | listTransactions => exact h
  | listUsers => exact h

theorem run_preserve (hashFn : String → String) (P : Store → Prop)
    (hstep : ∀ s op, P s → P (apply_op hashFn s op).1) :
    ∀ (ops : List Op) (s : Store), P s → P (run hashFn ops s) := by
  intro ops
  induction ops with
  | nil => intro s h; exact h
  | cons op ops ih =>
    intro s h
    exact ih (apply_op hashFn s op).1 (hstep s op h)

theorem pairwise_append_fresh {l : List ℕ} (h : l.Pairwise (· < ·)) :
    (l ++ [get_next_id l]).Pairwise (· < ·) := by
  rw [List.pairwise_append]
  refine ⟨h, List.pairwise_singleton _ _, ?_⟩
  intro a ha b hb
  rw [List.mem_singleton] at hb
  subst hb
  exact lt_get_next_id ha

theorem record_transaction_txids (s : Store) (uid : ℕ) (amt : ℚ)
    (ty d : String) (iid : Option ℕ) :
    (record_transaction s uid amt ty d iid).1.transactions_db.map (·.id)
      = s.transactions_db.map (·.id)
          ++ [get_next_id (s.transactions_db.map (·.id))] := by
  unfold record_transaction
  simp

theorem update_user_balance_sorted {s : Store} (uid : ℕ) (amount : ℚ)
    (operation : String) (h : IdsSorted s) :
    IdsSorted (update_user_balance s uid amount operation).1 := by
  unfold update_user_balance
  cases hu : get_user_by_id s uid with
  | none => exact h
  | some u =>
    dsimp only
    constructor
    · split
      · split
        · exact h.1
        · rw [setBalance_map_id]; exact h.1
      · split
        · rw [setBalance_map_id]; exact h.1
        · rw [setBalance_map_id]; exact h.1
    · split
      · split
        · exact h.2
        · exact h.2
      · split
        · exact h.2
        · exact h.2

theorem record_transaction_sorted {s : Store} (uid : ℕ) (amt : ℚ)
    (ty d : String) (iid : Option ℕ) (h : IdsSorted s) :
    IdsSorted (record_transaction s uid amt ty d iid).1 := by
  constructor
  · rw [record_transaction_users]; exact h.1
  · rw [record_transaction_txids]; exact pairwise_append_fresh h.2

theorem create_user_record_sorted (hashFn : String → String)
    (username password : String) {s : Store} (h : IdsSorted s) :
    IdsSorted (create_user_record hashFn s username password).1 := by
  cases hg : get_user s username with
  | some u => rw [create_user_record_dup password hg]; exact h
  | none =>
    rw [create_user_record_fresh password hg]
    refine record_transaction_sorted _ _ _ _ _ ⟨?_, h.2⟩
    dsimp only
    rw [List.map_append]
    exact pairwise_append_fresh h.1

theorem spend_money_sorted {s : Store} (uid : ℕ) (amount : ℚ) (d : String)
    (h : IdsSorted s) : IdsSorted (spend_money s uid amount d).1 := by
  cases hr : update_user_balance s uid amount "SUBTRACT" with
  | mk s1 r =>
    have h1 : IdsSorted s1 := by
      have := update_user_balance_sorted uid amount "SUBTRACT" h
      rw [hr] at this
      exact this
    cases r with
    | error e => rw [spend_money_error d hr]; exact h1
    | ok nb => rw [spend_money_ok d hr]; exact record_transaction_sorted _ _ _ _ _ h1

theorem buy_item_sorted {s : Store} (uid item_id : ℕ)
    (h : IdsSorted s) : IdsSorted (buy_item s uid item_id).1 := by
  cases hi : s.items_db.find? (fun i => i.id == item_id) with
  | none => rw [buy_item_no_item hi]; exact h
  | some item =>
    cases hr : update_user_balance s uid item.price "SUBTRACT" with
    | mk s1 r =>
      have h1 : IdsSorted s1 := by
        have := update_user_balance_sorted uid item.price "SUBTRACT" h
        rw [hr] at this
        exact this
      cases r with
      | error e => rw [buy_item_error hi hr]; exact h1
      | ok nb => rw [buy_item_ok hi hr]; exact record_transaction_sorted _ _ _ _ _ h1

theorem apply_op_sorted (hashFn : String → String) {s : Store} (op : Op)
    (h : IdsSorted s) : IdsSorted (apply_op hashFn s op).1 := by
  cases op with
  | register username password =>
    have := create_user_record_sorted hashFn username password h
    cases hc : create_user_record hashFn s username password with
    | mk s' r => rw [hc] at this; simpa [apply_op, hc] using this
  | spend uid amount d =>
    have := spend_money_sorted uid amount d h
    cases hc : spend_money s uid amount d with
    | mk s' r => rw [hc] at this; simpa [apply_op, hc] using this
  | buy uid item_id =>
    have := buy_item_sorted uid item_id h
    cases hc : buy_item s uid item_id with
    | mk s' r => rw [hc] at this; simpa [apply_op, hc] using this
  | readBalance uid => exact h
  | listItems => exact h
  | listTransactions => exact h
  | listUsers => exact h

theorem apply_op_register (hashFn : String → String) (s : Store)
    (username password : String) :
    apply_op hashFn s (Op.register username password)
      = ((create_user_record hashFn s username password).1,
         (create_user_record hashFn s username password).2.map (fun _ => ())) := rfl

theorem apply_op_spend (hashFn : String → String) (s : Store)
    (uid : ℕ) (amount : ℚ) (d : String) :
    apply_op hashFn s (Op.spend uid amount d)
      = ((spend_money s uid amount d).1,
         (spend_money s uid amount d).2.map (fun _ => ())) := rfl

theorem apply_op_buy (hashFn : String → String) (s : Store) (uid item_id : ℕ) :
    apply_op hashFn s (Op.buy uid item_id)
      = ((buy_item s uid item_id).1,
         (buy_item s uid item_id).2.map (fun _ => ())) := rfl

theorem except_map_eq_error {α β γ : Type} {f : α → β} {x : Except γ α} {e : γ}
    (h : x.map f = .error e) : x = .error e := by
  cases x with
  | error e' => simpa [Except.map] using h
  | ok a => simp [Except.map] at h

theorem update_user_balance_error_fst {s s1 : Store} {uid : ℕ} {amount : ℚ}
    {operation : String} {e : HTTPError}
    (h : update_user_balance s uid amount operation = (s1, .error e)) : s1 = s := by
  unfold update_user_balance at h
  cases hu : get_user_by_id s uid with
  | none => rw [hu] at h; injection h with h1 h2; exact h1.symm
  | some u =>
    rw [hu] at h
    dsimp only at h
    split at h
    · split at h
      · injection h with h1 h2; exact h1.symm
      · injection h with h1 h2; exact absurd h2 (by simp)
    · split at h
      · injection h with h1 h2; exact absurd h2 (by simp)
      · injection h with h1 h2; exact absurd h2 (by simp)

theorem record_transaction_tx_eq (s : Store) (uid : ℕ) (amt : ℚ)
    (ty d : String) (iid : Option ℕ) :
    (record_transaction s uid amt ty d iid).1.transactions_db
      = s.transactions_db ++ [(record_transaction s uid amt ty d iid).2] := rfl

theorem update_user_balance_fst_tx (s : Store) (uid : ℕ) (amt : ℚ)
    (operation : String) :
    (update_user_balance s uid amt operation).1.transactions_db
      = s.transactions_db := by
  unfold update_user_balance
  cases hu : get_user_by_id s uid with
  | none => rfl
  | some u =>
    dsimp only
    split
    · split <;> rfl
    · split <;> rfl

/-- C1: for every user and every sequence of register, spend, and buy
operations starting from the empty store, the user's balance is ≥ 0 after
each operation (including after the 2-decimal rounding on mutation). -/
theorem C1_balance_nonneg (hashFn : String → String) (ops : List Op) :
    ∀ u ∈ (run hashFn ops initStore).users_db, 0 ≤ u.balance :=
  run_preserve hashFn AllNonneg (fun _ op h => apply_op_nonneg hashFn op h)
    ops initStore (fun u hu => absurd hu (by simp [initStore]))

theorem C1_balance_nonneg_witness :
    (⟨1, "alice", "secret1", 100⟩ : User)
        ∈ (run idHashFn [Op.register "alice" "secret1"] initStore).users_db
    ∧ (0:ℚ) ≤ (⟨1, "alice", "secret1", 100⟩ : User).balance :=
  ⟨by decide,
   C1_balance_nonneg idHashFn [Op.register "alice" "secret1"] _ (by decide)⟩

/-- C5: whenever register, spend, or buy (or a read endpoint) fails with a
domain error, the whole store — users, items, transactions, clock — is
exactly unchanged; no partial mutation happens, not even balance rounding. -/
theorem C5_error_no_mutation (hashFn : String → String) (s : Store) (op : Op)
    (e : HTTPError) (h : (apply_op hashFn s op).2 = .error e) :
    (apply_op hashFn s op).1 = s := by
  cases op with
  | register username password =>
    rw [apply_op_register] at h ⊢
    have h3 := except_map_eq_error h
    cases hg : get_user s username with
    | some u => rw [create_user_record_dup password hg]
    | none =>
      rw [create_user_record_fresh password hg] at h3
      simp at h3
  | spend uid amount d =>
    rw [apply_op_spend] at h ⊢
    have h3 := except_map_eq_error h
    cases hr : update_user_balance s uid amount "SUBTRACT" with
    | mk s1 r =>
      cases r with
      | error e' =>
        rw [spend_money_error d hr]
        exact update_user_balance_error_fst hr
      | ok nb =>
        rw [spend_money_ok d hr] at h3
        simp at h3
  | buy uid item_id =>
    rw [apply_op_buy] at h ⊢
    have h3 := except_map_eq_error h
    cases hi : s.items_db.find? (fun i => i.id == item_id) with
    | none => rw [buy_item_no_item hi]
    | some item =>
      cases hr : update_user_balance s uid item.price "SUBTRACT" with
      | mk s1 r =>
        cases r with
        | error e' =>
          rw [buy_item_error hi hr]
          exact update_user_balance_error_fst hr
        | ok nb =>
          rw [buy_item_ok hi hr] at h3
          simp at h3
  | readBalance uid => simp [apply_op] at h
  | listItems => simp [apply_op] at h
  | listTransactions => simp [apply_op] at h
  | listUsers => simp [apply_op] at h

theorem C5_error_no_mutation_witness :
    (apply_op idHashFn initStore (Op.spend 1 30 "x")).2 = .error user_not_found_error
    ∧ (apply_op idHashFn initStore (Op.spend 1 30 "x")).1 = initStore :=
  ⟨rfl,
   C5_error_no_mutation idHashFn initStore (Op.spend 1 30 "x")
     user_not_found_error rfl⟩

/-- C7: the ledger is append-only: every operation either leaves the
transactions list identical or extends it by exactly one entry at the end,
and the ledger append itself is total and always appends exactly its fresh
entry at the end. -/
theorem C7_ledger_append_only (hashFn : String → String) (s : Store) (op : Op) :
    ((apply_op hashFn s op).1.transactions_db = s.transactions_db
      ∨ ∃ t, (apply_op hashFn s op).1.transactions_db = s.transactions_db ++ [t])
    ∧ ∀ (uid : ℕ) (amt : ℚ) (ty d : String) (iid : Option ℕ),
        (record_transaction s uid amt ty d iid).1.transactions_db
          = s.transactions_db ++ [(record_transaction s uid amt ty d iid).2] := by
  constructor
  · cases op with
    | register username password =>
      rw [apply_op_register]
      cases hg : get_user s username with
      | some u => rw [create_user_record_dup password hg]; left; rfl
      | none =>
        rw [create_user_record_fresh password hg]
        right
        exact ⟨_, rfl⟩
    | spend uid amount d =>
      rw [apply_op_spend]
      cases hr : update_user_balance s uid amount "SUBTRACT" with
      | mk s1 r =>
        cases r with
        | error e' =>
          rw [spend_money_error d hr]
          rw [update_user_balance_error_fst hr]
          left; rfl
        | ok nb =>
          rw [spend_money_ok d hr]
          right
          have hs1 : s1.transactions_db = s.transactions_db := by
            have h4 := update_user_balance_fst_tx s uid amount "SUBTRACT"
            rw [hr] at h4
            exact h4
          exact ⟨(record_transaction s1 uid amount "SPEND" d none).2,
            by rw [record_transaction_tx_eq, hs1]⟩
    | buy uid item_id =>
      rw [apply_op_buy]
      cases hi : s.items_db.find? (fun i => i.id == item_id) with
      | none => rw [buy_item_no_item hi]; left; rfl
      | some item =>
        cases hr : update_user_balance s uid item.price "SUBTRACT" with
        | mk s1 r =>
          cases r with
          | error e' =>
            rw [buy_item_error hi hr]
            rw [update_user_balance_error_fst hr]
            left; rfl
          | ok nb =>
            rw [buy_item_ok hi hr]
            right
            have hs1 : s1.transactions_db = s.transactions_db := by
              have h4 := update_user_balance_fst_tx s uid item.price "SUBTRACT"
              rw [hr] at h4
              exact h4
            exact ⟨(record_transaction s1 uid item.price "BUY"
                ("Purchased: " ++ item.name) (some item_id)).2,
              by rw [record_transaction_tx_eq, hs1]⟩
    | readBalance uid => left; rfl
    | listItems => left; rfl
    | listTransactions => left; rfl
    | listUsers => left; rfl
  · intro uid amt ty d iid
    rfl

/-- C2: for an existing user and `amount > 0`, spend fails with
`InsufficientFunds` iff `amount >` current balance; on success the new
balance is the old balance minus `amount`, rounded to 2 decimals, and
exactly one SPEND transaction with that amount and user id is appended. -/
theorem C2_spend_spec (s : Store) (user_id : ℕ) (amount : ℚ)
    (description : String) (u : User)
    (hu : get_user_by_id s user_id = some u) (_hpos : 0 < amount) :
    ((spend_money s user_id amount description).2
        = .error insufficient_funds_error ↔ amount > u.balance)
    ∧ (amount ≤ u.balance →
        spend_money s user_id amount description =
          ({ users_db := setBalance s.users_db user_id
               (round2 (u.balance - amount)),
             items_db := s.items_db,
             transactions_db := s.transactions_db ++
               [{ id := get_next_id (s.transactions_db.map (·.id)),
                  user_id := user_id, timestamp := s.clock, type := "SPEND",
                  amount := amount, description := description,
                  item_id := none }],
             clock := s.clock + 1 },
           .ok (round2 (u.balance - amount)))
        ∧ get_user_by_id (spend_money s user_id amount description).1 user_id
            = some { u with balance := round2 (u.balance - amount) }) := by
  by_cases hlt : u.balance < amount
  · have he := spend_money_error description
      (update_user_balance_insufficient hu hlt)
    constructor
    · rw [he]
      exact iff_of_true rfl hlt
    · intro hge
      exact absurd hlt (not_lt.mpr hge)
  · have hge : amount ≤ u.balance := not_lt.mp hlt
    have hok := spend_money_ok description (update_user_balance_subtract_ok hu hge)
    constructor
    · rw [hok]
      exact iff_of_false (by simp) hlt
    · intro _
      refine ⟨?_, ?_⟩
      · rw [hok]
        rfl
      · rw [hok]
        exact find?_setBalance _ hu

theorem C2_spend_spec_witness :
    get_user_by_id aliceStore 1 = some aliceUser ∧ (0:ℚ) < 30
    ∧ ((spend_money aliceStore 1 30 "Lunch").2 = .error insufficient_funds_error
        ↔ (30:ℚ) > aliceUser.balance) :=
  ⟨by decide, by decide,
   (C2_spend_spec aliceStore 1 30 "Lunch" aliceUser (by decide) (by decide)).1⟩

/-- C3: for an existing user, buy fails with `ItemNotFound` (state unchanged)
when no item has that id, fails with `InsufficientFunds` when the item price
exceeds the balance (state unchanged), and on success subtracts the price
(rounded to 2 decimals) and appends exactly one BUY transaction whose amount
is the price and whose item_id references the item. -/
theorem C3_buy_spec (s : Store) (user_id item_id : ℕ) (u : User)
    (hu : get_user_by_id s user_id = some u) :
    (s.items_db.find? (fun i => i.id == item_id) = none →
        buy_item s user_id item_id = (s, .error (item_not_found_error item_id)))
    ∧ (∀ item, s.items_db.find? (fun i => i.id == item_id) = some item →
        ((item.price > u.balance →
            buy_item s user_id item_id = (s, .error insufficient_funds_error))
         ∧ (item.price ≤ u.balance →
             buy_item s user_id item_id =
               ({ users_db := setBalance s.users_db user_id
                    (round2 (u.balance - item.price)),
                  items_db := s.items_db,
                  transactions_db := s.transactions_db ++
                    [{ id := get_next_id (s.transactions_db.map (·.id)),
                       user_id := user_id, timestamp := s.clock, type := "BUY",
                       amount := item.price,
                       description := "Purchased: " ++ item.name,
                       item_id := some item_id }],
                  clock := s.clock + 1 },
                .ok (round2 (u.balance - item.price)))
             ∧ get_user_by_id (buy_item s user_id item_id).1 user_id
                 = some { u with balance := round2 (u.balance - item.price) }))) := by
  constructor
  · intro hi
    exact buy_item_no_item hi
  · intro item hi
    constructor
    · intro hlt
      exact buy_item_error hi (update_user_balance_insufficient hu hlt)
    · intro hge
      have hok := buy_item_ok hi (update_user_balance_subtract_ok hu hge)
      refine ⟨?_, ?_⟩
      · rw [hok]
        rfl
      · rw [hok]
        exact find?_setBalance _ hu

theorem C3_buy_spec_witness :
    get_user_by_id aliceStore 1 = some aliceUser
    ∧ aliceStore.items_db.find? (fun i => i.id == 999) = none
    ∧ buy_item aliceStore 1 999 = (aliceStore, .error (item_not_found_error 999)) :=
  ⟨by decide, by decide,
   (C3_buy_spec aliceStore 1 999 aliceUser (by decide)).1 (by decide)⟩

/-- C4: registration fails with `DuplicateUsername` leaving the store
unchanged when the username exists; otherwise it appends exactly one user
whose balance is the initial grant 100.00 and exactly one REGISTER
transaction with amount 100.00 and the new user's id. -/
theorem C4_register_spec (hashFn : String → String) (s : Store)
    (username password : String) :
    (∀ u, get_user s username = some u →
        create_user_record hashFn s username password
          = (s, .error duplicate_username_error))
    ∧ (get_user s username = none →
        INITIAL_BALANCE = 100
        ∧ create_user_record hashFn s username password =
            ({ users_db := s.users_db ++
                 [{ id := get_next_id (s.users_db.map (·.id)),
                    username := username,
                    hashed_password := hashFn password,
                    balance := INITIAL_BALANCE }],
               items_db := s.items_db,
               transactions_db := s.transactions_db ++
                 [{ id := get_next_id (s.transactions_db.map (·.id)),
                    user_id := get_next_id (s.users_db.map (·.id)),
                    timestamp := s.clock, type := "REGISTER",
                    amount := INITIAL_BALANCE,
                    description := "Initial Wallet Setup", item_id := none }],
               clock := s.clock + 1 },
             .ok { id := get_next_id (s.users_db.map (·.id)),
                   username := username,
                   hashed_password := hashFn password,
                   balance := INITIAL_BALANCE })) := by
  constructor
  · intro u h
    exact create_user_record_dup password h
  · intro h
    refine ⟨rfl, ?_⟩
    rw [create_user_record_fresh password h]
    rfl

theorem C4_register_spec_witness :
    get_user aliceStore "alice" = some aliceUser
    ∧ create_user_record idHashFn aliceStore "alice" "newpass"
        = (aliceStore, .error duplicate_username_error)
    ∧ get_user initStore "bob" = none
    ∧ INITIAL_BALANCE = 100 :=
  ⟨by decide,
   (C4_register_spec idHashFn aliceStore "alice" "newpass").1 aliceUser (by decide),
   by decide,
   ((C4_register_spec idHashFn initStore "bob" "hunter2").2 (by decide)).1⟩

/-- C6: across any operation sequence from the empty store, the ids of the
users and transactions tables are strictly increasing in insertion order,
hence all distinct; `get_next_id` yields 1 on an empty table and the maximum
existing id plus one otherwise. -/
theorem C6_ids_monotone (hashFn : String → String) (ops : List Op) :
    ((run hashFn ops initStore).users_db.map (·.id)).Pairwise (· < ·)
    ∧ ((run hashFn ops initStore).transactions_db.map (·.id)).Pairwise (· < ·)
    ∧ ((run hashFn ops initStore).users_db.map (·.id)).Nodup
    ∧ ((run hashFn ops initStore).transactions_db.map (·.id)).Nodup
    ∧ get_next_id [] = 1
    ∧ (∀ (ids : List ℕ) (m : ℕ), ids.max? = some m → get_next_id ids = m + 1) := by
  have h : IdsSorted (run hashFn ops initStore) :=
    run_preserve hashFn IdsSorted (fun _ op h => apply_op_sorted hashFn op h)
      ops initStore ⟨by simp [initStore], by simp [initStore]⟩
  refine ⟨h.1, h.2, h.1.imp Nat.ne_of_lt, h.2.imp Nat.ne_of_lt, rfl, ?_⟩
  intro ids m hm
  cases ids with
  | nil => simp [List.max?] at hm
  | cons x xs =>
    have hfold : some (xs.foldl max x) = some m := hm
    injection hfold with hfold
    rw [← hfold]
    rfl

theorem C6_ids_monotone_witness :
    List.max? [3, 5, 2] = some 5 ∧ get_next_id [3, 5, 2] = 5 + 1 :=
  ⟨by decide, (C6_ids_monotone idHashFn []).2.2.2.2.2 [3, 5, 2] 5 (by decide)⟩

/-- C8 counterexample: with no user named "alice", a well-formed token whose
`sub` claim is "alice" is rejected with the same 401 `credentials_exception`
raised for malformed tokens — not with a distinct `UserNotFound` error. -/
theorem C8_counterexample :
    get_current_user initStore (DecodeResult.payload (some "alice"))
        = .error credentials_exception
    ∧ get_current_user initStore DecodeResult.jwtError
        = .error credentials_exception
    ∧ credentials_exception ≠ user_not_found_error := by
  refine ⟨rfl, rfl, by decide⟩

/-- C8 (amended): the session verifier fails with the single
`credentials_exception` (401 InvalidCredential) in every failure case —
malformed/expired/unparseable token, missing username claim, and also an
unresolvable username; with a valid token whose username resolves it returns
that user's record. -/
theorem C8_get_current_user_spec (s : Store) (d : DecodeResult) :
    (d = .jwtError → get_current_user s d = .error credentials_exception)
    ∧ (d = .payload none → get_current_user s d = .error credentials_exception)
    ∧ (∀ username, d = .payload (some username) → get_user s username = none →
        get_current_user s d = .error credentials_exception)
    ∧ (∀ username u, d = .payload (some username) →
        get_user s username = some u → get_current_user s d = .ok u) := by
  refine ⟨?_, ?_, ?_, ?_⟩
  · rintro rfl
    rfl
  · rintro rfl
    rfl
  · rintro username rfl h
    unfold get_current_user
    dsimp only
    rw [h]
  · rintro username u rfl h
    unfold get_current_user
    dsimp only
    rw [h]

theorem C8_get_current_user_spec_witness :
    get_user aliceStore "alice" = some aliceUser
    ∧ get_current_user aliceStore (DecodeResult.payload (some "alice")) = .ok aliceUser
    ∧ get_user initStore "alice" = none
    ∧ get_current_user initStore (DecodeResult.payload (some "alice"))
        = .error credentials_exception
    ∧ get_current_user initStore DecodeResult.jwtError
        = .error credentials_exception :=
  ⟨by decide,
   (C8_get_current_user_spec aliceStore _).2.2.2 "alice" aliceUser rfl (by decide),
   by decide,
   (C8_get_current_user_spec initStore _).2.2.1 "alice" rfl (by decide),
   (C8_get_current_user_spec initStore _).1 rfl⟩

/-- C10: for an existing user and any operation string other than "ADD" and
"SUBTRACT", `update_user_balance` raises no error and adds or subtracts
nothing: it returns the balance rounded to 2 decimals, and the only state
change is that rounding of the stored balance. -/
theorem C10_unknown_operation (s : Store) (user_id : ℕ) (amount : ℚ)
    (operation : String) (u : User) (hu : get_user_by_id s user_id = some u)
    (hA : operation ≠ "ADD") (hS : operation ≠ "SUBTRACT") :
    update_user_balance s user_id amount operation =
      ({ s with users_db := setBalance s.users_db user_id (round2 u.balance) },
       .ok (round2 u.balance)) :=
  update_user_balance_other amount hu hA hS

theorem C10_unknown_operation_witness :
    get_user_by_id aliceStore 1 = some aliceUser
    ∧ ("NOOP" : String) ≠ "ADD" ∧ ("NOOP" : String) ≠ "SUBTRACT"
    ∧ update_user_balance aliceStore 1 7 "NOOP" =
        ({ aliceStore with
            users_db := setBalance aliceStore.users_db 1 (round2 aliceUser.balance) },
         .ok (round2 aliceUser.balance)) :=
  ⟨by decide, by decide, by decide,
   C10_unknown_operation aliceStore 1 7 "NOOP" aliceUser
     (by decide) (by decide) (by decide)⟩

end Wallet









